import Mathlib

/-!
Verification of the weather-mcp-server HTTP client subsystem.

Shallow embedding of `src/core/client.py`, `src/core/auth.py`,
`src/core/config.py` and `src/tools/weather_tools.py`.  Time values
(`time.time()`, `datetime.now()`) are modelled as rationals counting
seconds; Python dictionaries parsed from JSON are modelled by the
`Json` inductive; fallible Python code is modelled in `Except`.
-/

set_option maxHeartbeats 1000000

namespace WeatherMcp

/-! ### Rate limiter — `src/core/client.py`, class `RateLimiter` -/

/-- Outcome of one sequential execution of `RateLimiter.acquire`.
`done` carries the updated `self.requests` list and the time at which the
call returns; `deadlock` marks the branch where the code sleeps and then
recursively re-enters `acquire()` while the same task still holds the
non-reentrant `asyncio.Lock` (`async with self._lock` around the whole
body), so the caller suspends forever; `indexError` marks the
`self.requests[0]` access on an empty list (reachable only when
`max_requests = 0`). -/
inductive AcquireResult
  | done (requests : List ℚ) (finishTime : ℚ)
  | deadlock (requests : List ℚ)
  | indexError
  deriving DecidableEq

/-- `self.requests = [t for t in self.requests if now - t < self.time_window]` -/
def pruneRequests (requests : List ℚ) (now window : ℚ) : List ℚ :=
  requests.filter (fun t => decide (now - t < window))

/-- Sequential semantics of `RateLimiter.acquire` (lines 38-58).  The body
runs under `async with self._lock`.  When the pruned log is at the limit and
`sleep_time > 0`, the code executes `await asyncio.sleep(sleep_time)` and then
`return await self.acquire()`: the recursive call re-awaits `self._lock`,
which is still held by the same task and is not reentrant, so no further
progress is possible. -/
def acquireOnce (maxRequests : Nat) (window : ℚ) (requests : List ℚ) (now : ℚ) :
    AcquireResult :=
  let pruned := pruneRequests requests now window
  if maxRequests ≤ pruned.length then
    match pruned.head? with
    | none => AcquireResult.indexError
    | some oldest =>
      let sleepTime := window - (now - oldest)
      if 0 < sleepTime then
        AcquireResult.deadlock pruned
      else
        AcquireResult.done (pruned ++ [now]) now
  else
    AcquireResult.done (pruned ++ [now]) now

/-! ### HTTP client retry loop — `src/core/client.py`, `McpApiClient._make_request` -/

/-- What one attempt of the `session.request` block does: either the request
raises `aiohttp.ClientError` / `asyncio.TimeoutError` (transport failure), or
an HTTP response with a status, a `Content-Type` header and a body arrives. -/
inductive AttemptOutcome
  | transportError (e : String)
  | response (status : Nat) (contentType : String) (body : String)

/-- The value returned on success: `response.json()` when the content type
contains `application/json`, otherwise the `{"content": ..., "content_type": ...}`
fallback wrapper. -/
inductive ParsedBody
  | jsonBody (body : String)
  | textBody (content : String) (contentType : String)
  deriving DecidableEq

/-- Terminal outcome of `_make_request`: a returned parsed body, a raised
`APIError` (message, `status_code`, `response_text`), or a raised
`ConnectionError` after exhausting all attempts. -/
inductive RequestResult
  | success (body : ParsedBody)
  | apiError (status : Nat) (message : String) (responseText : String)
  | connectionError (message : String)
  deriving DecidableEq

/-- Result of running the retry loop, together with the backoff delays slept
(in seconds, in order) and the number of attempts actually made. -/
structure MakeRequestTrace where
  result : RequestResult
  delays : List ℚ
  attempts : Nat
  deriving DecidableEq

/-- `"application/json" in content_type` (Python substring test). -/
def strContainsSub (s pattern : String) : Bool :=
  decide (pattern.toList <:+: s.toList)

/-- `max_retries = 3` (line 147). -/
def maxRetries : Nat := 3

/-- `base_delay = 1.0` (line 148). -/
def baseDelay : ℚ := 1

/-- Handling of an arrived HTTP response inside the `async with` block
(lines 168-188): status `>= 400` raises `APIError` immediately; otherwise the
body is parsed according to the content type. -/
def parseResponse (status : Nat) (contentType body : String) : RequestResult :=
  if 400 ≤ status then
    RequestResult.apiError status
      ("API error " ++ toString status ++ ": " ++ body) body
  else if strContainsSub contentType "application/json" then
    RequestResult.success (ParsedBody.jsonBody body)
  else
    RequestResult.success (ParsedBody.textBody body contentType)

/-- The loop `for attempt in range(max_retries + 1)` (lines 151-201), from a
given attempt index with `remaining` retries left.  Only
`aiohttp.ClientError` / `asyncio.TimeoutError` enter the retry branch; a
raised `APIError` propagates at once.  Before each retry the code sleeps
`base_delay * 2 ** attempt` seconds. -/
def retryFrom (outcomes : Nat → AttemptOutcome) :
    Nat → Nat → List ℚ → MakeRequestTrace
  | attempt, remaining, delays =>
    match outcomes attempt with
    | AttemptOutcome.response s ct b => ⟨parseResponse s ct b, delays, attempt + 1⟩
    | AttemptOutcome.transportError e =>
      match remaining with
      | 0 =>
        ⟨RequestResult.connectionError
            ("Request failed after " ++ toString (maxRetries + 1) ++ " attempts: " ++ e),
          delays, attempt + 1⟩
      | r + 1 =>
        retryFrom outcomes (attempt + 1) r (delays ++ [baseDelay * 2 ^ attempt])

/-- `_make_request`'s retry phase: attempts start at 0 with `max_retries`
retries available and no delay slept yet. -/
def makeRequest (outcomes : Nat → AttemptOutcome) : MakeRequestTrace :=
  retryFrom outcomes 0 maxRetries []

/-! ### `health_check` — `src/core/client.py` lines 287-315 -/

/-- What `await self.get(endpoint)` does for one candidate endpoint:
return normally, raise an `APIError` with a status code, or raise any other
exception (`ConnectionError`, `AuthenticationError`, ...). -/
inductive ProbeOutcome
  | success
  | apiError (status : Nat)
  | otherError
  deriving DecidableEq

/-- The `for endpoint in endpoints_to_try` loop body: a success returns
`True`; an `APIError` with status 404 continues to the next candidate; any
other `APIError` returns `False`; `except Exception: continue` skips every
remaining exception; falling off the end of the loop returns `True`. -/
def healthCheckList : List ProbeOutcome → Bool
  | [] => true
  | o :: rest =>
    match o with
    | ProbeOutcome.success => true
    | ProbeOutcome.apiError s => if s = 404 then healthCheckList rest else false
    | ProbeOutcome.otherError => healthCheckList rest

/-- `endpoints_to_try` (lines 291-296), in source order. -/
def endpointsToTry : List String := ["/health", "/status", "/ping", "/"]

/-- `McpApiClient.health_check`, parameterized by what probing each endpoint
does. -/
def healthCheck (probe : String → ProbeOutcome) : Bool :=
  healthCheckList (endpointsToTry.map probe)

/-- Modelled from the claim's words, for comparison with the code: "a 404
APIError from a candidate causes it to try the next candidate; any other
error causes an immediate false". -/
def healthCheckClaimList : List ProbeOutcome → Bool
  | [] => true
  | o :: rest =>
    match o with
    | ProbeOutcome.success => true
    | ProbeOutcome.apiError s => if s = 404 then healthCheckClaimList rest else false
    | ProbeOutcome.otherError => false

/-- The claim's version of `health_check` over the same candidate list. -/
def healthCheckClaim (probe : String → ProbeOutcome) : Bool :=
  healthCheckClaimList (endpointsToTry.map probe)

/-- An outcome the loop skips over (continuing with the next candidate):
a 404 `APIError`, or any exception that is not an `APIError`. -/
def skippableOutcome : ProbeOutcome → Bool
  | ProbeOutcome.apiError s => decide (s = 404)
  | ProbeOutcome.otherError => true
  | ProbeOutcome.success => false

/-- A probe in which `/health` raises a non-`APIError` exception and every
other candidate succeeds. -/
def probeFirstOtherError (endpoint : String) : ProbeOutcome :=
  if endpoint = "/health" then ProbeOutcome.otherError else ProbeOutcome.success

/-! ### Auth provider — `src/core/auth.py`, class `McpServerAuth` -/

/-- The error classes of the spec taxonomy raised by the auth code
(the code raises `ValueError` for missing configuration). -/
inductive AuthError
  | configurationError (message : String)
  deriving DecidableEq

/-- `f"Weather MCP Server/0.1.0"` (the fixed `User-Agent` string). -/
def userAgent : String := "Weather MCP Server/0.1.0"

/-- `McpServerAuth._get_api_key_headers` (lines 61-72): empty key (Python
falsy) raises; otherwise the three headers are returned. -/
def getApiKeyHeaders (apiKey apiKeyHeader : String) :
    Except AuthError (List (String × String)) :=
  if apiKey = "" then
    Except.error (AuthError.configurationError
      "API key not configured. Please set API_KEY environment variable.")
  else
    Except.ok [(apiKeyHeader, apiKey),
      ("Content-Type", "application/json"),
      ("User-Agent", userAgent)]

/-- `auth_type = "API Key"` (hardcoded in `get_auth_headers`, line 44). -/
def authType : String := "API Key"

/-- `McpServerAuth.get_auth_headers` (lines 41-55) in its configured
API-key branch. -/
def getAuthHeaders (apiKey apiKeyHeader : String) :
    Except AuthError (List (String × String)) :=
  if authType = "API Key" then getApiKeyHeaders apiKey apiKeyHeader
  else Except.ok [("Authorization", "Custom Auth")]

/-- Token state for the bearer-token branch: `self.access_token` and
`self.token_expires_at`; `none` models both a missing attribute and
Python `None`. -/
structure BearerState where
  accessToken : Option String
  tokenExpiresAt : Option ℚ
  deriving DecidableEq

/-- `buffer_time = timedelta(minutes=5)` in seconds. -/
def tokenBuffer : ℚ := 300

/-- `timedelta(days=365)` in seconds: the fixed duration set by
`_refresh_bearer_token`. -/
def bearerRefreshDuration : ℚ := 31536000

/-- `McpServerAuth._is_token_valid` (lines 91-100): missing/empty token or
missing expiry is invalid; otherwise valid iff `now < expiry - 5min`. -/
def isTokenValid (st : BearerState) (now : ℚ) : Bool :=
  match st.accessToken, st.tokenExpiresAt with
  | some t, some e => decide (t ≠ "") && decide (now < e - tokenBuffer)
  | _, _ => false

/-- `McpServerAuth._refresh_bearer_token` (lines 102-110): re-reads the
statically configured `config.api.bearer_token` and sets the expiry 365 days
out, or raises when no token is configured. -/
def refreshBearerToken (cfgBearerToken : String) (now : ℚ) :
    Except AuthError BearerState :=
  if cfgBearerToken = "" then
    Except.error (AuthError.configurationError
      "Bearer token not configured. Please set BEARER_TOKEN environment variable.")
  else
    Except.ok ⟨some cfgBearerToken, some (now + bearerRefreshDuration)⟩

/-- `McpServerAuth._get_bearer_token_headers` (lines 75-89).  Returns the
headers, the state after the call, and whether a refresh ran. -/
def getBearerTokenHeaders (cfgBearerToken : String) (st : BearerState) (now : ℚ) :
    Except AuthError (List (String × String) × BearerState × Bool) :=
  let refreshed : Except AuthError (BearerState × Bool) :=
    if isTokenValid st now then Except.ok (st, false)
    else (refreshBearerToken cfgBearerToken now).map (fun st2 => (st2, true))
  match refreshed with
  | Except.error e => Except.error e
  | Except.ok (st2, didRefresh) =>
    match st2.accessToken with
    | some t =>
      if t = "" then
        Except.error (AuthError.configurationError
          "Bearer token not available. Please check your configuration.")
      else
        Except.ok ([("Authorization", "Bearer " ++ t),
          ("Content-Type", "application/json"),
          ("User-Agent", userAgent)], st2, didRefresh)
    | none =>
      Except.error (AuthError.configurationError
        "Bearer token not available. Please check your configuration.")

/-! ### JSON values and the Python dict/list operations used by the tools -/

/-- A parsed JSON value, as produced by `response.json()`. -/
inductive Json
  | null
  | bool (b : Bool)
  | num (q : ℚ)
  | str (s : String)
  | arr (elems : List Json)
  | obj (fields : List (String × Json))

/-- Key lookup in a dict's binding list, with a default. -/
def lookupField (fields : List (String × Json)) (key : String) (d : Json) : Json :=
  match fields with
  | [] => d
  | (k, v) :: rest => if k = key then v else lookupField rest key d

/-- Key lookup without a default, used to inspect results in theorems. -/
def lookupField? (fields : List (String × Json)) (key : String) : Option Json :=
  match fields with
  | [] => none
  | (k, v) :: rest => if k = key then some v else lookupField? rest key

/-- `x.get(key, default)`: defined on dicts only; on any other value Python
raises `AttributeError`. -/
def pyGetD (j : Json) (key : String) (d : Json) : Except String Json :=
  match j with
  | Json.obj fields => Except.ok (lookupField fields key d)
  | _ => Except.error "AttributeError: object has no attribute get"

/-- `x[0]`: first element of a list or first character of a string;
`IndexError` when empty, `KeyError` on a dict without key `0`, `TypeError`
otherwise. -/
def pyIndexZero (j : Json) : Except String Json :=
  match j with
  | Json.arr [] => Except.error "IndexError: list index out of range"
  | Json.arr (x :: _) => Except.ok x
  | Json.str s =>
    match s.data with
    | [] => Except.error "IndexError: string index out of range"
    | c :: _ => Except.ok (Json.str (String.mk [c]))
  | Json.obj _ => Except.error "KeyError: 0"
  | _ => Except.error "TypeError: object is not subscriptable"

/-- `x / d` for a literal number `d` (the `visibility / 1000` conversion);
Python booleans are ints, every other non-number raises `TypeError`. -/
def pyDivNum (j : Json) (d : ℚ) : Except String ℚ :=
  match j with
  | Json.num q => Except.ok (q / d)
  | Json.bool b => Except.ok ((if b then 1 else 0) / d)
  | _ => Except.error "TypeError: unsupported operand type for div"

/-- `x + y` as used for `rain.get("3h", 0) + snow.get("3h", 0)`. -/
def pyAdd (x y : Json) : Except String Json :=
  match x, y with
  | Json.num a, Json.num b => Except.ok (Json.num (a + b))
  | Json.num a, Json.bool b => Except.ok (Json.num (a + (if b then 1 else 0)))
  | Json.bool a, Json.num b => Except.ok (Json.num ((if a then 1 else 0) + b))
  | Json.bool a, Json.bool b =>
    Except.ok (Json.num ((if a then 1 else 0) + (if b then 1 else 0)))
  | Json.str a, Json.str b => Except.ok (Json.str (a ++ b))
  | Json.arr a, Json.arr b => Except.ok (Json.arr (a ++ b))
  | _, _ => Except.error "TypeError: unsupported operand types for add"

/-- `for item in x`: lists iterate their elements, dicts their keys, strings
their characters; other values raise `TypeError`. -/
def pyIter (j : Json) : Except String (List Json) :=
  match j with
  | Json.arr xs => Except.ok xs
  | Json.obj fields => Except.ok (fields.map (fun p => Json.str p.1))
  | Json.str s => Except.ok (s.data.map (fun c => Json.str (String.mk [c])))
  | _ => Except.error "TypeError: object is not iterable"

/-- `l[:n]` for an `int` bound `n` (Python slice semantics: a negative stop
counts from the end, clamped at 0). -/
def pySliceTo (l : List Json) (n : Int) : List Json :=
  if n < 0 then l.take ((l.length : Int) + n).toNat else l.take n.toNat

/-- The `"status"` field of a tool result. -/
def statusOf (j : Json) : Option Json :=
  match j with
  | Json.obj fields => lookupField? fields "status"
  | _ => none

/-- A named field of a dict result, used to inspect tool outputs. -/
def jsonField (j : Json) (key : String) : Option Json :=
  match j with
  | Json.obj fields => lookupField? fields key
  | _ => none

/-! ### Tool layer — `src/tools/weather_tools.py` -/

/-- The structured `{status: "error", message, timestamp}` result built by
every `except` block in the tool layer. -/
def errorResult (message timestampIso : String) : Json :=
  Json.obj [("status", Json.str "error"),
    ("message", Json.str message),
    ("timestamp", Json.str timestampIso)]

/-- `run_async_tool` (lines 17-36): runs the coroutine and converts any
raised exception into a structured error result; hence its type is total. -/
def runAsyncTool (inner : Except String Json) (timestampIso : String) : Json :=
  match inner with
  | Except.ok r => r
  | Except.error e => errorResult ("Tool execution failed: " ++ e) timestampIso

/-- The `weather_data` dict literal of `get_current_weather_async`
(lines 52-65), evaluated entry by entry in source order.  Any lookup on a
non-dict, an indexing of an empty `weather` list, or a non-numeric
`visibility` raises, short-circuiting the chain. -/
def extractWeatherData (response : Json) (city units nowIso : String) :
    Except String Json := do
  let name ← pyGetD response "name" (Json.str city)
  let sys ← pyGetD response "sys" (Json.obj [])
  let country ← pyGetD sys "country" (Json.str "Unknown")
  let main ← pyGetD response "main" (Json.obj [])
  let temp ← pyGetD main "temp" (Json.num 0)
  let feels ← pyGetD main "feels_like" (Json.num 0)
  let humidity ← pyGetD main "humidity" (Json.num 0)
  let pressure ← pyGetD main "pressure" (Json.num 0)
  let weather ← pyGetD response "weather" (Json.arr [Json.obj []])
  let w0 ← pyIndexZero weather
  let description ← pyGetD w0 "description" (Json.str "Unknown")
  let wind ← pyGetD response "wind" (Json.obj [])
  let windSpeed ← pyGetD wind "speed" (Json.num 0)
  let windDeg ← pyGetD wind "deg" (Json.num 0)
  let visRaw ← pyGetD response "visibility" (Json.num 0)
  let visibility ← pyDivNum visRaw 1000
  Except.ok (Json.obj [("city", name), ("country", country),
    ("temperature", temp), ("feels_like", feels), ("humidity", humidity),
    ("pressure", pressure), ("description", description),
    ("wind_speed", windSpeed), ("wind_direction", windDeg),
    ("visibility", Json.num visibility), ("units", Json.str units),
    ("timestamp", Json.str nowIso)])

/-- `get_current_weather_async` (lines 38-78): the upstream call and the
extraction run inside one `try`; any exception becomes the
`Failed to get weather for ...` error result. -/
def getCurrentWeatherAsync (upstream : Except String Json)
    (city units nowIso : String) : Json :=
  match upstream.bind
      (fun r => (extractWeatherData r city units nowIso).map (fun wd => (r, wd))) with
  | Except.ok (r, wd) =>
    Json.obj [("status", Json.str "success"), ("data", wd), ("raw_response", r)]
  | Except.error e =>
    errorResult ("Failed to get weather for " ++ city ++ ": " ++ e) nowIso

/-- Is the value a dict? -/
def isObjJson : Json → Bool
  | Json.obj _ => true
  | _ => false

/-- Is the value a list whose first element is a dict? -/
def headIsObj : Json → Bool
  | Json.arr (Json.obj _ :: _) => true
  | _ => false

/-- Is the value a number? -/
def isNumJson : Json → Bool
  | Json.num _ => true
  | _ => false

/-- Shape condition under which the extraction's lookups cannot raise:
the response is a dict whose `sys` / `main` / `wind` entries (when present)
are dicts, whose `weather` entry (when present) is a non-empty list starting
with a dict, and whose `visibility` entry (when present) is a number. -/
def weatherWellShaped (response : Json) : Bool :=
  match response with
  | Json.obj fields =>
    isObjJson (lookupField fields "sys" (Json.obj [])) &&
    isObjJson (lookupField fields "main" (Json.obj [])) &&
    isObjJson (lookupField fields "wind" (Json.obj [])) &&
    headIsObj (lookupField fields "weather" (Json.arr [Json.obj []])) &&
    isNumJson (lookupField fields "visibility" (Json.num 0))
  | _ => false

/-- One record of the `client.get` call a tool issued (each such call both
acquires a rate-limiter slot and performs the HTTP request). -/
structure IssuedRequest where
  endpoint : String
  q : String
  cnt : Int
  units : String
  deriving DecidableEq

/-- One forecast entry built in the loop of `get_weather_forecast_async`
(lines 96-106). -/
def forecastItem (item : Json) : Except String Json := do
  let dt ← pyGetD item "dt_txt" (Json.str "")
  let main ← pyGetD item "main" (Json.obj [])
  let temp ← pyGetD main "temp" (Json.num 0)
  let feels ← pyGetD main "feels_like" (Json.num 0)
  let humidity ← pyGetD main "humidity" (Json.num 0)
  let weather ← pyGetD item "weather" (Json.arr [Json.obj []])
  let w0 ← pyIndexZero weather
  let description ← pyGetD w0 "description" (Json.str "Unknown")
  let wind ← pyGetD item "wind" (Json.obj [])
  let speed ← pyGetD wind "speed" (Json.num 0)
  let rain ← pyGetD item "rain" (Json.obj [])
  let rain3h ← pyGetD rain "3h" (Json.num 0)
  let snow ← pyGetD item "snow" (Json.obj [])
  let snow3h ← pyGetD snow "3h" (Json.num 0)
  let precip ← pyAdd rain3h snow3h
  Except.ok (Json.obj [("datetime", dt), ("temperature", temp),
    ("feels_like", feels), ("humidity", humidity),
    ("description", description), ("wind_speed", speed),
    ("precipitation", precip)])

/-- The `for item in response.get("list", [])` loop, collecting entries. -/
def processForecastItems : List Json → Except String (List Json)
  | [] => Except.ok []
  | item :: rest => do
    let f ← forecastItem item
    let fs ← processForecastItems rest
    Except.ok (f :: fs)

/-- The body of `get_weather_forecast_async`'s `try` after the upstream call
(lines 94-115): the loop runs first, then the result dict is built; its
`forecasts` entry is `forecasts[:days*8]`. -/
def getWeatherForecastBody (response : Json) (city : String) (days : Int)
    (units nowIso : String) : Except String Json := do
  let listJ ← pyGetD response "list" (Json.arr [])
  let items ← pyIter listJ
  let forecasts ← processForecastItems items
  let cityObj ← pyGetD response "city" (Json.obj [])
  let cname ← pyGetD cityObj "name" (Json.str city)
  let ccountry ← pyGetD cityObj "country" (Json.str "Unknown")
  Except.ok (Json.obj [("status", Json.str "success"), ("city", cname),
    ("country", ccountry), ("forecasts", Json.arr (pySliceTo forecasts (days * 8))),
    ("units", Json.str units), ("timestamp", Json.str nowIso)])

/-- `get_weather_forecast_async` (lines 80-122), returning the result and
the log of `client.get` calls issued.  `cnt = days * 8` is sent upstream. -/
def getWeatherForecastAsync (city : String) (days : Int) (units : String)
    (upstream : Except String Json) (nowIso : String) : Json × List IssuedRequest :=
  let req : IssuedRequest := ⟨"/forecast", city, days * 8, units⟩
  match upstream.bind (fun r => getWeatherForecastBody r city days units nowIso) with
  | Except.ok j => (j, [req])
  | Except.error e =>
    (errorResult ("Failed to get forecast for " ++ city ++ ": " ++ e) nowIso, [req])

/-- The registered `get_weather_forecast` tool (lines 187-208): the empty
city check runs first, then the days range check; only then is
`run_async_tool(get_weather_forecast_async, ...)` invoked. -/
def getWeatherForecastTool (city : String) (days : Int) (units : String)
    (upstream : Except String Json) (nowIso : String) : Json × List IssuedRequest :=
  if city = "" then
    (Json.obj [("status", Json.str "error"),
      ("message", Json.str "City name is required")], [])
  else if days < 1 ∨ 5 < days then
    (Json.obj [("status", Json.str "error"),
      ("message", Json.str "Days must be between 1 and 5")], [])
  else
    getWeatherForecastAsync city days units upstream nowIso

/-! ### Configuration — `src/core/config.py`, `APIConfig.full_api_url` -/

/-- Python `str.rstrip("/")`: remove every trailing slash. -/
def rstripSlashes (s : String) : String :=
  String.mk (s.data.reverse.dropWhile (fun c => c == '/')).reverse

/-- Python `str.lower()` (character-wise lowering). -/
def strLower (s : String) : String :=
  String.mk (s.data.map Char.toLower)

/-- `APIConfig.full_api_url` (lines 78-83); `McpApiClient.__init__` uses it
verbatim as `self.base_url`. -/
def fullApiUrl (baseUrl version : String) : String :=
  if version ≠ "" ∧ strLower version ≠ "none" then
    rstripSlashes baseUrl ++ "/" ++ version
  else
    rstripSlashes baseUrl

/-- Concrete attempt schedule whose first three attempts raise transport
errors and whose fourth returns HTTP 200 with a JSON body. -/
def outcomesThreeFailThenOk : Nat → AttemptOutcome
  | 0 => AttemptOutcome.transportError "boom"
  | 1 => AttemptOutcome.transportError "boom"
  | 2 => AttemptOutcome.transportError "boom"
  | _ + 3 => AttemptOutcome.response 200 "application/json" "ok"

/-! ## Theorems -/

/-- C1: the spec claims that an `acquire()` call that finds `max_requests`
retained timestamps suspends until the oldest exits the window and then
re-checks and appends.  In the code the recheck is `return await
self.acquire()` executed while the caller still holds the non-reentrant
`asyncio.Lock` taken by `async with self._lock`, so the call can never
complete: with `max_requests = 1`, `window = 60`, a first acquire at `t = 0`
records its timestamp, and a second acquire at `t = 0` reaches the deadlock
branch instead of ever appending. -/
theorem rateLimiter_acquire_at_limit_never_completes :
    acquireOnce 1 60 [] 0 = AcquireResult.done [0] 0 ∧
    acquireOnce 1 60 [0] 0 = AcquireResult.deadlock [0] := by
  constructor
  · simp [acquireOnce, pruneRequests]
  · simp [acquireOnce, pruneRequests]

/-- If the first `k` attempts (starting at `attempt`) raise transport errors
and attempt `attempt + k` receives an HTTP response, the loop returns that
response's handling after sleeping `baseDelay * 2 ^ i` for each failed
attempt `i`, having made `attempt + k + 1` attempts in total. -/
theorem retryFrom_reaches_response (outcomes : Nat → AttemptOutcome) :
    ∀ (k attempt remaining : Nat) (delays : List ℚ), k ≤ remaining →
    (∀ i, i < k → ∃ e, outcomes (attempt + i) = AttemptOutcome.transportError e) →
    ∀ s ct b, outcomes (attempt + k) = AttemptOutcome.response s ct b →
    retryFrom outcomes attempt remaining delays =
      ⟨parseResponse s ct b,
        delays ++ (List.range k).map (fun i => baseDelay * 2 ^ (attempt + i)),
        attempt + k + 1⟩ := by
  intro k
  induction k with
  | zero =>
    intro attempt remaining delays _ _ s ct b hres
    rw [Nat.add_zero] at hres
    rw [retryFrom, hres]
    simp
  | succ k ih =>
    intro attempt remaining delays hk hfail s ct b hres
    obtain ⟨e, he⟩ := hfail 0 (Nat.succ_pos k)
    rw [Nat.add_zero] at he
    obtain ⟨r, rfl⟩ : ∃ r, remaining = r + 1 := ⟨remaining - 1, by omega⟩
    rw [retryFrom, he]
    dsimp only
    have hfail2 : ∀ i, i < k →
        ∃ e2, outcomes (attempt + 1 + i) = AttemptOutcome.transportError e2 := by
      intro i hi
      have h := hfail (i + 1) (by omega)
      rwa [show attempt + (i + 1) = attempt + 1 + i by omega] at h
    have hres2 : outcomes (attempt + 1 + k) = AttemptOutcome.response s ct b := by
      rwa [show attempt + (k + 1) = attempt + 1 + k by omega] at hres
    rw [ih (attempt + 1) r (delays ++ [baseDelay * 2 ^ attempt]) (by omega) hfail2
      s ct b hres2]
    have hdelays :
        (delays ++ [baseDelay * 2 ^ attempt]) ++
            (List.range k).map (fun i => baseDelay * 2 ^ (attempt + 1 + i)) =
          delays ++ (List.range (k + 1)).map (fun i => baseDelay * 2 ^ (attempt + i)) := by
      rw [List.range_succ_eq_map, List.map_cons, List.map_map, Nat.add_zero,
        List.append_assoc, List.singleton_append]
      refine congrArg (fun x => delays ++ (baseDelay * 2 ^ attempt :: x)) ?_
      apply List.map_congr_left
      intro i _
      simp only [Function.comp_apply]
      rw [show attempt + Nat.succ i = attempt + 1 + i by omega]
    rw [hdelays]
    exact congrArg (MakeRequestTrace.mk _ _) (by omega)

/-- C2: transport-level failures are retried at most 3 times (at most 4
attempts), sleeping `1.0 * 2 ^ attempt` seconds before each retry; when the
first `k ≤ 3` attempts fail with transport errors and attempt `k` receives a
response with status `< 400`, the parsed response is returned as a success at
attempt `k + 1` after delays `2 ^ 0, ..., 2 ^ (k-1)`; when all 4 attempts
fail with transport errors, a `ConnectionError` wrapping the last underlying
exception is raised after delays 1, 2, 4. -/
theorem makeRequest_retry_transport_backoff :
    (∀ (outcomes : Nat → AttemptOutcome) (k : Nat), k ≤ 3 →
      (∀ i, i < k → ∃ e, outcomes i = AttemptOutcome.transportError e) →
      ∀ s ct b, outcomes k = AttemptOutcome.response s ct b → s < 400 →
        makeRequest outcomes =
          ⟨parseResponse s ct b,
            (List.range k).map (fun i => baseDelay * 2 ^ i), k + 1⟩ ∧
        ∃ body, parseResponse s ct b = RequestResult.success body) ∧
    (∀ (outcomes : Nat → AttemptOutcome) (es : Nat → String),
      (∀ i, i ≤ 3 → outcomes i = AttemptOutcome.transportError (es i)) →
      makeRequest outcomes =
        ⟨RequestResult.connectionError
            ("Request failed after 4 attempts: " ++ es 3), [1, 2, 4], 4⟩) := by
  constructor
  · intro outcomes k hk hfail s ct b hres hs
    constructor
    · have h := retryFrom_reaches_response outcomes k 0 maxRetries [] hk
        (fun i hi => by rw [Nat.zero_add]; exact hfail i hi) s ct b
        (by rwa [Nat.zero_add])
      rw [makeRequest, h]
      simp
    · rw [parseResponse, if_neg (by omega)]
      by_cases hct : strContainsSub ct "application/json"
      · rw [if_pos hct]
        exact ⟨_, rfl⟩
      · rw [if_neg hct]
        exact ⟨_, rfl⟩
  · intro outcomes es hall
    have h0 := hall 0 (by omega)
    have h1 := hall 1 (by omega)
    have h2 := hall 2 (by omega)
    have h3 := hall 3 (by omega)
    rw [makeRequest, maxRetries, retryFrom, h0]
    dsimp only
    rw [retryFrom, h1]
    dsimp only
    rw [retryFrom, h2]
    dsimp only
    rw [retryFrom, h3]
    dsimp only
    have hmsg : "Request failed after " ++ toString (maxRetries + 1) ++
        " attempts: " ++ es 3 = "Request failed after 4 attempts: " ++ es 3 := rfl
    rw [hmsg]
    norm_num [baseDelay]

/-- C2 witness: a schedule whose first three attempts raise transport errors
and whose fourth succeeds returns the parsed success after delays 1, 2, 4;
a schedule that always raises exhausts all 4 attempts and raises a
`ConnectionError` wrapping the last exception. -/
theorem makeRequest_retry_transport_backoff_witness :
    makeRequest outcomesThreeFailThenOk =
      ⟨RequestResult.success (ParsedBody.jsonBody "ok"), [1, 2, 4], 4⟩ ∧
    makeRequest (fun _ => AttemptOutcome.transportError "down") =
      ⟨RequestResult.connectionError "Request failed after 4 attempts: down",
        [1, 2, 4], 4⟩ := by
  constructor
  · have hpr : parseResponse 200 "application/json" "ok" =
        RequestResult.success (ParsedBody.jsonBody "ok") := rfl
    have h := (makeRequest_retry_transport_backoff.1 outcomesThreeFailThenOk 3
      (by omega) (fun i hi => ⟨"boom", by interval_cases i <;> rfl⟩)
      200 "application/json" "ok" rfl (by omega)).1
    rw [h, hpr]
    norm_num [baseDelay, List.range_succ]
  · have h := makeRequest_retry_transport_backoff.2
      (fun _ => AttemptOutcome.transportError "down") (fun _ => "down")
      (fun _ _ => rfl)
    rw [h]
    rfl

/-- C3: an HTTP response with status `>= 400` arriving at any attempt `k`
makes `_make_request` raise `APIError` at once, carrying the status code and
the response body text verbatim; the loop stops at `k + 1` attempts, so HTTP
error statuses are never retried (only transport exceptions reach the retry
branch). -/
theorem makeRequest_apiError_immediate :
    ∀ (outcomes : Nat → AttemptOutcome) (k : Nat), k ≤ 3 →
    (∀ i, i < k → ∃ e, outcomes i = AttemptOutcome.transportError e) →
    ∀ s ct b, outcomes k = AttemptOutcome.response s ct b → 400 ≤ s →
    makeRequest outcomes =
      ⟨RequestResult.apiError s ("API error " ++ toString s ++ ": " ++ b) b,
        (List.range k).map (fun i => baseDelay * 2 ^ i), k + 1⟩ := by
  intro outcomes k hk hfail s ct b hres hs
  have h := retryFrom_reaches_response outcomes k 0 maxRetries [] hk
    (fun i hi => by rw [Nat.zero_add]; exact hfail i hi) s ct b
    (by rwa [Nat.zero_add])
  rw [makeRequest, h, parseResponse, if_pos hs]
  simp

/-- C3 witness: a 404 response on the first attempt surfaces as an
`APIError` with the original status and body after exactly one attempt. -/
theorem makeRequest_apiError_immediate_witness :
    makeRequest (fun _ => AttemptOutcome.response 404 "text/html" "Not Found") =
      ⟨RequestResult.apiError 404 "API error 404: Not Found" "Not Found",
        [], 1⟩ := by
  have h := makeRequest_apiError_immediate
    (fun _ => AttemptOutcome.response 404 "text/html" "Not Found")
    0 (by omega) (fun i hi => absurd hi (Nat.not_lt_zero i))
    404 "text/html" "Not Found" rfl (by omega)
  rw [h]
  rfl

/-- C4 counterexample: when probing `/health` raises an exception that is
not an `APIError` (for example the `ConnectionError` left by exhausted
retries), the code's `except Exception: continue` moves on to `/status` and
`health_check` returns `true`, while the claim's "any other error causes an
immediate false" would give `false`. -/
theorem healthCheck_otherError_counterexample :
    healthCheck probeFirstOtherError = true ∧
    healthCheckClaim probeFirstOtherError = false := by
  exact ⟨rfl, rfl⟩

/-- C4 amended: `health_check` probes `/health`, `/status`, `/ping`, `/` in
that fixed order and returns true on the first success; a 404 `APIError` or
any non-`APIError` exception causes it to try the next candidate; a
non-404 `APIError` causes an immediate false; if every candidate yields a
404 or a non-`APIError` exception, it still returns true.  Equivalently, the
result is false exactly when some candidate raises a non-404 `APIError` and
every earlier candidate was skipped over. -/
theorem healthCheck_characterization :
    (∀ probe, healthCheck probe =
      healthCheckList [probe "/health", probe "/status", probe "/ping", probe "/"]) ∧
    (∀ os : List ProbeOutcome, healthCheckList os = false ↔
      ∃ pre s rest, os = pre ++ ProbeOutcome.apiError s :: rest ∧ s ≠ 404 ∧
        ∀ o ∈ pre, skippableOutcome o = true) := by
  constructor
  · intro probe
    rfl
  · intro os
    induction os with
    | nil =>
      constructor
      · intro h
        simp [healthCheckList] at h
      · rintro ⟨pre, s, rest, heq, -, -⟩
        cases pre <;> simp at heq
    | cons o rest ih =>
      cases o with
      | success =>
        simp only [healthCheckList]
        constructor
        · intro h
          simp at h
        · rintro ⟨pre, s, r2, heq, hs, hpre⟩
          cases pre with
          | nil => simp at heq
          | cons p pre2 =>
            simp only [List.cons_append, List.cons.injEq] at heq
            obtain ⟨hp, -⟩ := heq
            have hskip := hpre p (by simp)
            rw [← hp] at hskip
            simp [skippableOutcome] at hskip
      | apiError s =>
        by_cases h404 : s = 404
        · subst h404
          simp only [healthCheckList, eq_self_iff_true, if_true]
          rw [ih]
          constructor
          · rintro ⟨pre, s2, r2, heq, hs2, hpre⟩
            refine ⟨ProbeOutcome.apiError 404 :: pre, s2, r2, by simp [heq], hs2, ?_⟩
            intro o ho
            rcases List.mem_cons.mp ho with h | h
            · subst h
              simp [skippableOutcome]
            · exact hpre o h
          · rintro ⟨pre, s2, r2, heq, hs2, hpre⟩
            cases pre with
            | nil =>
              simp only [List.nil_append, List.cons.injEq] at heq
              obtain ⟨h1, -⟩ := heq
              injection h1 with h1
              exact absurd h1.symm hs2
            | cons p pre2 =>
              simp only [List.cons_append, List.cons.injEq] at heq
              obtain ⟨-, h2⟩ := heq
              exact ⟨pre2, s2, r2, h2, hs2,
                fun o ho => hpre o (List.mem_cons_of_mem _ ho)⟩
        · simp only [healthCheckList, if_neg h404]
          constructor
          · intro _
            exact ⟨[], s, rest, by simp, h404, by simp⟩
          · intro _
            trivial
      | otherError =>
        simp only [healthCheckList]
        rw [ih]
        constructor
        · rintro ⟨pre, s2, r2, heq, hs2, hpre⟩
          refine ⟨ProbeOutcome.otherError :: pre, s2, r2, by simp [heq], hs2, ?_⟩
          intro o ho
          rcases List.mem_cons.mp ho with h | h
          · subst h
            rfl
          · exact hpre o h
        · rintro ⟨pre, s2, r2, heq, hs2, hpre⟩
          cases pre with
          | nil => simp at heq
          | cons p pre2 =>
            simp only [List.cons_append, List.cons.injEq] at heq
            obtain ⟨-, h2⟩ := heq
            exact ⟨pre2, s2, r2, h2, hs2,
              fun o ho => hpre o (List.mem_cons_of_mem _ ho)⟩

/-- C4 amended witness: the characterization applied to the all-404 probe
(result true) and to a concrete outcome list with a skipped exception
followed by a 500 `APIError` (result false). -/
theorem healthCheck_characterization_witness :
    healthCheck (fun _ => ProbeOutcome.apiError 404) = true ∧
    healthCheckList [ProbeOutcome.otherError, ProbeOutcome.apiError 500] = false := by
  constructor
  · rw [healthCheck_characterization.1 (fun _ => ProbeOutcome.apiError 404)]
    rfl
  · refine (healthCheck_characterization.2
      [ProbeOutcome.otherError, ProbeOutcome.apiError 500]).mpr ?_
    refine ⟨[ProbeOutcome.otherError], 500, [], rfl, by omega, ?_⟩
    intro o ho
    simp only [List.mem_singleton] at ho
    subst ho
    rfl

/-- C5: in the configured API-key mode, `get_auth_headers` with a non-empty
key deterministically returns exactly the header mapping
`{configured_header_name: key, Content-Type: application/json, User-Agent:
Weather MCP Server/0.1.0}`, and with an unset (empty) key it raises the
missing-configuration error. -/
theorem apiKeyHeaders_deterministic :
    ∀ apiKey apiKeyHeader : String,
      (apiKey ≠ "" → getAuthHeaders apiKey apiKeyHeader =
        Except.ok [(apiKeyHeader, apiKey), ("Content-Type", "application/json"),
          ("User-Agent", "Weather MCP Server/0.1.0")]) ∧
      (apiKey = "" → getAuthHeaders apiKey apiKeyHeader =
        Except.error (AuthError.configurationError
          "API key not configured. Please set API_KEY environment variable.")) := by
  intro apiKey apiKeyHeader
  constructor
  · intro h
    rw [getAuthHeaders, if_pos (show authType = "API Key" from rfl),
      getApiKeyHeaders, if_neg h]
    rfl
  · intro h
    rw [getAuthHeaders, if_pos (show authType = "API Key" from rfl),
      getApiKeyHeaders, if_pos h]

/-- C5 witness: the theorem evaluated at a concrete key and header name,
and at the empty key. -/
theorem apiKeyHeaders_deterministic_witness :
    getAuthHeaders "secret-key" "X-API-Key" =
      Except.ok [("X-API-Key", "secret-key"), ("Content-Type", "application/json"),
        ("User-Agent", "Weather MCP Server/0.1.0")] ∧
    getAuthHeaders "" "X-API-Key" =
      Except.error (AuthError.configurationError
        "API key not configured. Please set API_KEY environment variable.") := by
  exact ⟨(apiKeyHeaders_deterministic "secret-key" "X-API-Key").1 (by decide),
    (apiKeyHeaders_deterministic "" "X-API-Key").2 rfl⟩

/-- The bearer token counts as valid exactly when it is a present non-empty
string and the current time is strictly before the expiry minus the
5-minute (300 s) buffer. -/
theorem isTokenValid_iff (st : BearerState) (now : ℚ) :
    isTokenValid st now = true ↔
      ∃ t e, st.accessToken = some t ∧ t ≠ "" ∧ st.tokenExpiresAt = some e ∧
        now < e - 300 := by
  obtain ⟨tok, exp⟩ := st
  cases tok <;> cases exp <;> simp [isTokenValid, tokenBuffer]

/-- C6: validity is exactly "non-empty token and now < expiry − 5 min"; a
`_get_bearer_token_headers` call on a valid token performs no refresh and
leaves the credential state unchanged; a call after expiry refreshes by
re-reading the static configured token with expiry a fixed 365 days out; and
a call after expiry with no configured token fails. -/
theorem bearerToken_validity_refresh :
    (∀ st now, isTokenValid st now = true ↔
      ∃ t e, st.accessToken = some t ∧ t ≠ "" ∧ st.tokenExpiresAt = some e ∧
        now < e - 300) ∧
    (∀ cfg st now, isTokenValid st now = true →
      ∃ hdrs, getBearerTokenHeaders cfg st now = Except.ok (hdrs, st, false)) ∧
    (∀ (cfg : String) (st : BearerState) (now e : ℚ),
      st.tokenExpiresAt = some e → e ≤ now → cfg ≠ "" →
      getBearerTokenHeaders cfg st now =
        Except.ok ([("Authorization", "Bearer " ++ cfg),
          ("Content-Type", "application/json"),
          ("User-Agent", "Weather MCP Server/0.1.0")],
          ⟨some cfg, some (now + 31536000)⟩, true)) ∧
    (∀ (st : BearerState) (now e : ℚ), st.tokenExpiresAt = some e → e ≤ now →
      getBearerTokenHeaders "" st now =
        Except.error (AuthError.configurationError
          "Bearer token not configured. Please set BEARER_TOKEN environment variable.")) := by
  have hinvalid : ∀ (st : BearerState) (now e : ℚ),
      st.tokenExpiresAt = some e → e ≤ now → isTokenValid st now = false := by
    intro st now e hexp hle
    cases h : isTokenValid st now with
    | false => rfl
    | true =>
      obtain ⟨t, e2, -, -, hexp2, hlt⟩ := (isTokenValid_iff st now).mp h
      rw [hexp] at hexp2
      injection hexp2 with hexp2
      rw [← hexp2] at hlt
      linarith
  refine ⟨isTokenValid_iff, ?_, ?_, ?_⟩
  · intro cfg st now hval
    obtain ⟨t, e, htok, hne, -, -⟩ := (isTokenValid_iff st now).mp hval
    refine ⟨[("Authorization", "Bearer " ++ t), ("Content-Type", "application/json"),
      ("User-Agent", userAgent)], ?_⟩
    simp [getBearerTokenHeaders, hval, htok, hne]
  · intro cfg st now e hexp hle hcfg
    have hinv := hinvalid st now e hexp hle
    simp [getBearerTokenHeaders, hinv, refreshBearerToken, hcfg, Except.map,
      bearerRefreshDuration, userAgent]
  · intro st now e hexp hle
    have hinv := hinvalid st now e hexp hle
    simp [getBearerTokenHeaders, hinv, refreshBearerToken, Except.map]

/-- C6 witness: with token `tok` expiring at `t = 1000`, a call at `t = 0`
is inside the validity window and refreshes nothing; a call at `t = 2000`
has expired and re-reads the configured token (expiry 365 days out); with no
configured token the expired call fails. -/
theorem bearerToken_validity_refresh_witness :
    isTokenValid ⟨some "tok", some 1000⟩ 0 = true ∧
    (∃ hdrs, getBearerTokenHeaders "cfg" ⟨some "tok", some 1000⟩ 0 =
      Except.ok (hdrs, (⟨some "tok", some 1000⟩ : BearerState), false)) ∧
    getBearerTokenHeaders "newtok" ⟨some "tok", some 1000⟩ 2000 =
      Except.ok ([("Authorization", "Bearer newtok"),
        ("Content-Type", "application/json"),
        ("User-Agent", "Weather MCP Server/0.1.0")],
        ⟨some "newtok", some 31538000⟩, true) ∧
    getBearerTokenHeaders "" ⟨some "tok", some 1000⟩ 2000 =
      Except.error (AuthError.configurationError
        "Bearer token not configured. Please set BEARER_TOKEN environment variable.") := by
  have hval : isTokenValid ⟨some "tok", some 1000⟩ 0 = true :=
    (bearerToken_validity_refresh.1 ⟨some "tok", some 1000⟩ 0).mpr
      ⟨"tok", 1000, rfl, by decide, rfl, by norm_num⟩
  refine ⟨hval, bearerToken_validity_refresh.2.1 "cfg" _ 0 hval, ?_, ?_⟩
  · have h := bearerToken_validity_refresh.2.2.1 "newtok" ⟨some "tok", some 1000⟩
      2000 1000 rfl (by norm_num) (by decide)
    rw [h, show "Bearer " ++ "newtok" = "Bearer newtok" from rfl]
    norm_num
  · exact bearerToken_validity_refresh.2.2.2 ⟨some "tok", some 1000⟩ 2000 1000 rfl
      (by norm_num)

/-- Binding a successful `Except` computation applies the continuation. -/
theorem bindOk {α β ε : Type} (a : α) (f : α → Except ε β) :
    (Except.ok a : Except ε α) >>= f = f a := rfl

/-- Binding a failed `Except` computation short-circuits. -/
theorem bindError {α β ε : Type} (e : ε) (f : α → Except ε β) :
    (Except.error e : Except ε α) >>= f = Except.error e := rfl

/-- C7: every failure of a tool invocation is caught: `run_async_tool` turns
any exception raised by the coroutine or its execution wrapper into the
structured `{status: "error", message, timestamp}` result, passes successful
results through unchanged, and `get_current_weather_async` itself always
returns a dict whose status is either `success` or `error` — being total
functions into `Json`, neither lets an exception propagate. -/
theorem toolBoundary_errors_are_structured :
    (∀ e now, runAsyncTool (Except.error e) now =
      Json.obj [("status", Json.str "error"),
        ("message", Json.str ("Tool execution failed: " ++ e)),
        ("timestamp", Json.str now)]) ∧
    (∀ r now, runAsyncTool (Except.ok r) now = r) ∧
    (∀ upstream city units nowIso,
      statusOf (getCurrentWeatherAsync upstream city units nowIso) =
          some (Json.str "success") ∨
      statusOf (getCurrentWeatherAsync upstream city units nowIso) =
          some (Json.str "error")) := by
  refine ⟨fun e now => rfl, fun r now => rfl, ?_⟩
  intro upstream city units nowIso
  rw [getCurrentWeatherAsync]
  cases upstream.bind
      (fun r => (extractWeatherData r city units nowIso).map (fun wd => (r, wd))) with
  | error e => right; rfl
  | ok p =>
    left
    obtain ⟨r, wd⟩ := p
    rfl

/-- C8 counterexample: a response whose `weather` field is present but an
empty list makes `response.get("weather", [{}])[0]` raise `IndexError`, so
the extraction is not total over all responses: the call returns the caught
error result, not a success with defaults. -/
theorem weatherExtraction_emptyWeatherList_counterexample :
    extractWeatherData (Json.obj [("weather", Json.arr [])]) "London" "metric" "TS" =
      Except.error "IndexError: list index out of range" ∧
    getCurrentWeatherAsync (Except.ok (Json.obj [("weather", Json.arr [])]))
        "London" "metric" "TS" =
      errorResult
        "Failed to get weather for London: IndexError: list index out of range"
        "TS" := by
  exact ⟨rfl, rfl⟩

/-- A value passing `isObjJson` is a dict. -/
theorem isObjJson_exists {j : Json} (h : isObjJson j = true) :
    ∃ fs, j = Json.obj fs := by
  cases j <;> first | exact ⟨_, rfl⟩ | simp [isObjJson] at h

/-- A value passing `headIsObj` is a list headed by a dict. -/
theorem headIsObj_exists {j : Json} (h : headIsObj j = true) :
    ∃ wfs rest, j = Json.arr (Json.obj wfs :: rest) := by
  cases j with
  | arr xs =>
    cases xs with
    | nil => simp [headIsObj] at h
    | cons x rest =>
      cases x <;> first | exact ⟨_, rest, rfl⟩ | simp [headIsObj] at h
  | null => simp [headIsObj] at h
  | bool b => simp [headIsObj] at h
  | num q => simp [headIsObj] at h
  | str s => simp [headIsObj] at h
  | obj fs => simp [headIsObj] at h

/-- A value passing `isNumJson` is a number. -/
theorem isNumJson_exists {j : Json} (h : isNumJson j = true) :
    ∃ q, j = Json.num q := by
  cases j <;> first | exact ⟨_, rfl⟩ | simp [isNumJson] at h

/-- C8 amended: for every upstream JSON response that is a dict whose
present `sys`/`main`/`wind` fields are dicts, whose present `weather` field
is a non-empty list headed by a dict, and whose present `visibility` field
is a number, the extraction succeeds and the tool returns a success result;
on the completely empty dict every default is substituted (city falls back
to the requested name, country and description to Unknown, numeric fields to
0, visibility divided by 1000).  Responses outside this shape (for example a
present-but-empty `weather` list) instead produce the caught error result. -/
theorem weatherExtraction_wellShaped_success :
    (∀ response city units nowIso, weatherWellShaped response = true →
      ∃ wd, extractWeatherData response city units nowIso = Except.ok wd ∧
        statusOf (getCurrentWeatherAsync (Except.ok response) city units nowIso) =
          some (Json.str "success")) ∧
    getCurrentWeatherAsync (Except.ok (Json.obj [])) "London" "metric" "TS" =
      Json.obj [("status", Json.str "success"),
        ("data", Json.obj [("city", Json.str "London"),
          ("country", Json.str "Unknown"), ("temperature", Json.num 0),
          ("feels_like", Json.num 0), ("humidity", Json.num 0),
          ("pressure", Json.num 0), ("description", Json.str "Unknown"),
          ("wind_speed", Json.num 0), ("wind_direction", Json.num 0),
          ("visibility", Json.num 0), ("units", Json.str "metric"),
          ("timestamp", Json.str "TS")]),
        ("raw_response", Json.obj [])] := by
  constructor
  · intro response city units nowIso hws
    cases response with
    | obj fields =>
      rw [weatherWellShaped] at hws
      simp only [Bool.and_eq_true] at hws
      obtain ⟨⟨⟨⟨hsys, hmain⟩, hwind⟩, hweather⟩, hvis⟩ := hws
      obtain ⟨sf, hsf⟩ := isObjJson_exists hsys
      obtain ⟨mf, hmf⟩ := isObjJson_exists hmain
      obtain ⟨wf, hwf⟩ := isObjJson_exists hwind
      obtain ⟨wfs, wrest, hwe⟩ := headIsObj_exists hweather
      obtain ⟨vq, hvq⟩ := isNumJson_exists hvis
      have hex : ∃ wd, extractWeatherData (Json.obj fields) city units nowIso =
          Except.ok wd := by
        simp only [extractWeatherData, pyGetD, bindOk, hsf, hmf, hwf, hwe, hvq,
          pyIndexZero, pyDivNum]
        exact ⟨_, rfl⟩
      obtain ⟨wd, hwd⟩ := hex
      refine ⟨wd, hwd, ?_⟩
      rw [getCurrentWeatherAsync]
      simp only [Except.bind, hwd, Except.map]
      rfl
    | null => simp [weatherWellShaped] at hws
    | bool b => simp [weatherWellShaped] at hws
    | num q => simp [weatherWellShaped] at hws
    | str s => simp [weatherWellShaped] at hws
    | arr xs => simp [weatherWellShaped] at hws
  · simp only [getCurrentWeatherAsync, extractWeatherData, pyGetD, lookupField,
      bindOk, pyIndexZero, pyDivNum, Except.bind, Except.map, zero_div]

/-- C8 amended witness: the empty dict is well-shaped, and the theorem
applied to it yields a successful extraction and a success status. -/
theorem weatherExtraction_wellShaped_success_witness :
    weatherWellShaped (Json.obj []) = true ∧
    ∃ wd, extractWeatherData (Json.obj []) "London" "metric" "TS" = Except.ok wd ∧
      statusOf (getCurrentWeatherAsync (Except.ok (Json.obj []))
          "London" "metric" "TS") = some (Json.str "success") := by
  exact ⟨rfl,
    weatherExtraction_wellShaped_success.1 (Json.obj []) "London" "metric" "TS" rfl⟩

/-- C9 counterexample: for `days = 0` (outside 1..5) with an empty city, the
tool returns the `City name is required` error (the city check runs first),
not the `Days must be between 1 and 5` error the claim states for every
out-of-range `days`. -/
theorem forecastTool_emptyCity_counterexample :
    getWeatherForecastTool "" 0 "metric" (Except.ok (Json.obj [])) "TS" =
      (Json.obj [("status", Json.str "error"),
        ("message", Json.str "City name is required")], []) ∧
    ("City name is required" : String) ≠ "Days must be between 1 and 5" := by
  exact ⟨rfl, by decide⟩

/-- `get_weather_forecast_async`'s post-upstream body either raises (the
exception is caught by the surrounding `try`) or returns the success dict
whose `forecasts` entry is the collected list truncated by `[:days*8]`. -/
theorem getWeatherForecastBody_shape (response : Json) (city : String)
    (days : Int) (units nowIso : String) :
    (∃ e, getWeatherForecastBody response city days units nowIso =
      Except.error e) ∨
    (∃ fsAll cname ccountry,
      getWeatherForecastBody response city days units nowIso =
        Except.ok (Json.obj [("status", Json.str "success"), ("city", cname),
          ("country", ccountry),
          ("forecasts", Json.arr (pySliceTo fsAll (days * 8))),
          ("units", Json.str units), ("timestamp", Json.str nowIso)])) := by
  cases h1 : pyGetD response "list" (Json.arr []) with
  | error e =>
    exact Or.inl ⟨e, by simp only [getWeatherForecastBody, h1, bindError]⟩
  | ok listJ =>
    cases h2 : pyIter listJ with
    | error e =>
      exact Or.inl ⟨e, by simp only [getWeatherForecastBody, h1, h2, bindOk, bindError]⟩
    | ok items =>
      cases h3 : processForecastItems items with
      | error e =>
        exact Or.inl ⟨e, by
          simp only [getWeatherForecastBody, h1, h2, h3, bindOk, bindError]⟩
      | ok fsAll =>
        cases h4 : pyGetD response "city" (Json.obj []) with
        | error e =>
          exact Or.inl ⟨e, by
            simp only [getWeatherForecastBody, h1, h2, h3, h4, bindOk, bindError]⟩
        | ok cityObj =>
          cases h5 : pyGetD cityObj "name" (Json.str city) with
          | error e =>
            exact Or.inl ⟨e, by
              simp only [getWeatherForecastBody, h1, h2, h3, h4, h5, bindOk, bindError]⟩
          | ok cname =>
            cases h6 : pyGetD cityObj "country" (Json.str "Unknown") with
            | error e =>
              exact Or.inl ⟨e, by
                simp only [getWeatherForecastBody, h1, h2, h3, h4, h5, h6,
                  bindOk, bindError]⟩
            | ok ccountry =>
              exact Or.inr ⟨fsAll, cname, ccountry, by
                simp only [getWeatherForecastBody, h1, h2, h3, h4, h5, h6, bindOk]⟩

/-- C9 amended: with a non-empty city, a `days` outside 1..5 yields exactly
the `Days must be between 1 and 5` error result with no `client.get` call
issued (hence no HTTP request and no rate-limiter acquisition, both of which
happen only inside `client.get`); with `days` in 1..5, every issued request
carries `cnt = days * 8` and a returned `forecasts` list has length at most
`days * 8`. -/
theorem forecastTool_daysValidation :
    (∀ (city : String) (days : Int) (units : String) upstream nowIso,
      city ≠ "" → (days < 1 ∨ 5 < days) →
      getWeatherForecastTool city days units upstream nowIso =
        (Json.obj [("status", Json.str "error"),
          ("message", Json.str "Days must be between 1 and 5")], [])) ∧
    (∀ (city : String) (days : Int) (units : String) upstream nowIso,
      1 ≤ days → days ≤ 5 →
      (∀ req ∈ (getWeatherForecastTool city days units upstream nowIso).2,
        req.cnt = days * 8) ∧
      (∀ fs, jsonField (getWeatherForecastTool city days units upstream nowIso).1
          "forecasts" = some (Json.arr fs) → fs.length ≤ (days * 8).toNat)) := by
  constructor
  · intro city days units upstream nowIso hc hd
    rw [getWeatherForecastTool, if_neg hc, if_pos hd]
  · intro city days units upstream nowIso h1 h5
    by_cases hc : city = ""
    · rw [getWeatherForecastTool, if_pos hc]
      constructor
      · intro req hreq
        simp at hreq
      · intro fs hfs
        simp [jsonField, lookupField?] at hfs
    · have hd : ¬(days < 1 ∨ 5 < days) := by omega
      rw [getWeatherForecastTool, if_neg hc, if_neg hd]
      constructor
      · intro req hreq
        rw [getWeatherForecastAsync] at hreq
        revert hreq
        cases upstream.bind
            (fun r => getWeatherForecastBody r city days units nowIso) with
        | error e =>
          intro hreq
          simp only [List.mem_singleton] at hreq
          rw [hreq]
        | ok j =>
          intro hreq
          simp only [List.mem_singleton] at hreq
          rw [hreq]
      · intro fs hfs
        rw [getWeatherForecastAsync] at hfs
        cases upstream with
        | error e =>
          simp [Except.bind, errorResult, jsonField, lookupField?] at hfs
        | ok response =>
          rw [show (Except.ok response).bind
              (fun r => getWeatherForecastBody r city days units nowIso) =
              getWeatherForecastBody response city days units nowIso from rfl] at hfs
          rcases getWeatherForecastBody_shape response city days units nowIso with
            ⟨e, he⟩ | ⟨fsAll, cname, ccountry, hok⟩
          · rw [he] at hfs
            simp [errorResult, jsonField, lookupField?] at hfs
          · rw [hok] at hfs
            simp [jsonField, lookupField?] at hfs
            subst hfs
            have hnn : ¬(days * 8 < 0) := by omega
            rw [pySliceTo, if_neg hnn]
            exact List.length_take_le _ _

/-- C9 amended witness: the theorem applied with `days = 0` (non-empty
city) gives the range error with an empty request log, and with `days = 3`
the single issued request carries `cnt = 24` and the empty forecasts list
respects the bound. -/
theorem forecastTool_daysValidation_witness :
    getWeatherForecastTool "Rome" 0 "metric" (Except.ok (Json.obj [])) "TS" =
      (Json.obj [("status", Json.str "error"),
        ("message", Json.str "Days must be between 1 and 5")], []) ∧
    IssuedRequest.cnt ⟨"/forecast", "Rome", 24, "metric"⟩ = 3 * 8 ∧
    List.length ([] : List Json) ≤ ((3 : Int) * 8).toNat := by
  refine ⟨?_, ?_, ?_⟩
  · exact forecastTool_daysValidation.1 "Rome" 0 "metric" (Except.ok (Json.obj []))
      "TS" (by decide) (by omega)
  · refine (forecastTool_daysValidation.2 "Rome" 3 "metric" (Except.ok (Json.obj []))
      "TS" (by omega) (by omega)).1 ⟨"/forecast", "Rome", 24, "metric"⟩ ?_
    rw [show (getWeatherForecastTool "Rome" 3 "metric" (Except.ok (Json.obj []))
      "TS").2 = [⟨"/forecast", "Rome", 24, "metric"⟩] from rfl]
    exact List.mem_singleton_self _
  · exact (forecastTool_daysValidation.2 "Rome" 3 "metric" (Except.ok (Json.obj []))
      "TS" (by omega) (by omega)).2 [] rfl

/-- C10: the client base URL `full_api_url` joins the base URL with all
trailing slashes stripped and the version with a single slash whenever the
version is non-empty and not `none` case-insensitively; otherwise it is just
the stripped base URL; and stripping removes every trailing slash. -/
theorem fullApiUrl_cases :
    (∀ base version : String, version ≠ "" → strLower version ≠ "none" →
      fullApiUrl base version = rstripSlashes base ++ "/" ++ version) ∧
    (∀ base version : String, version = "" ∨ strLower version = "none" →
      fullApiUrl base version = rstripSlashes base) ∧
    (∀ base : String, rstripSlashes (base ++ "/") = rstripSlashes base) := by
  refine ⟨?_, ?_, ?_⟩
  · intro base version h1 h2
    rw [fullApiUrl, if_pos ⟨h1, h2⟩]
  · intro base version h
    rw [fullApiUrl, if_neg]
    rintro ⟨h1, h2⟩
    rcases h with h | h
    · exact h1 h
    · exact h2 h
  · intro base
    rw [rstripSlashes, rstripSlashes,
      show (base ++ "/").data = base.data ++ ['/'] from String.data_append base "/"]
    simp [List.dropWhile]

/-- C10 witness: the theorem applied at a concrete base URL with a version,
and at a version equal to `none`. -/
theorem fullApiUrl_cases_witness :
    fullApiUrl "https://api.openweathermap.org/data/" "2.5" =
      "https://api.openweathermap.org/data/2.5" ∧
    fullApiUrl "https://api.example.com/" "none" = "https://api.example.com" := by
  constructor
  · have h := fullApiUrl_cases.1 "https://api.openweathermap.org/data/" "2.5"
      (by decide) (by decide)
    rw [h]
    rfl
  · have h := fullApiUrl_cases.2.1 "https://api.example.com/" "none"
      (Or.inr (by decide))
    rw [h]
    rfl

end WeatherMcp
